import Mathlib

/-
Verification of the qualification / retry / submission logic of the
WorldQuant-Brain-Alpha batch tool (src/brain_batch_alpha.py, src/session_manager.py,
src/main.py), as a shallow embedding in Lean 4.

Numeric metric fields are modelled as rationals (the Python code parses them with
`float(...)`; the claims under study concern order comparisons with exact decimal
constants, which ℚ represents exactly).  A JSON field that may be absent is an
`Option`; `Option.getD` mirrors Python's `dict.get(key, default)`.
-/

/-- One entry of the `checks` array of an alpha's `is` payload.
The Python code accesses `check['name']` unconditionally (a check without a
name would raise, aborting qualification), so `name` is mandatory; `result`,
`value` and `limit` are read with `.get` and may be absent. -/
structure Check where
  name : String
  result : Option String
  value : Option Rat
  limit : Option Rat
deriving DecidableEq, Repr

/-- The `is` metrics object of an alpha, as read by `check_alpha_qualification`
(src/brain_batch_alpha.py lines 199-221).  Every field is optional; the code
defaults each numeric field to 0 and `checks` to `[]`. -/
structure IsData where
  sharpe : Option Rat
  fitness : Option Rat
  turnover : Option Rat
  margin : Option Rat
  checks : Option (List Check)
deriving DecidableEq, Repr

/-- `is_data.get('checks', [])` (line 215). -/
def checksList (d : IsData) : List Check := d.checks.getD []

/-- `next((check for check in is_data.get('checks', []) if check['name'] ==
'LOW_SUB_UNIVERSE_SHARPE'), {})` (lines 213-219): the first check named
LOW_SUB_UNIVERSE_SHARPE, if any. -/
def subUniverseCheck (d : IsData) : Option Check :=
  (checksList d).find? (fun c => c.name == "LOW_SUB_UNIVERSE_SHARPE")

/-- `float(sub_universe_check.get('value', 0))` (line 220): 0 when the check is
absent or has no `value` field. -/
def subuniverseSharpe (d : IsData) : Rat :=
  ((subUniverseCheck d).bind Check.value).getD 0

/-- `float(sub_universe_check.get('limit', 0))` (line 221). -/
def requiredSubuniverseSharpe (d : IsData) : Rat :=
  ((subUniverseCheck d).bind Check.limit).getD 0

/-- The five sequential numeric criteria of lines 236-267: the code starts with
`is_qualified = True` and sets it to `False` whenever one criterion fails, which
is the conjunction of the five negated failure conditions. -/
def numericQualified (d : IsData) : Bool :=
  let sharpe := d.sharpe.getD 0
  let fitness := d.fitness.getD 0
  let turnover := d.turnover.getD 0
  let ic_mean := d.margin.getD 0
  !decide (sharpe < 1.5) && !decide (fitness < 1.0) &&
    !(decide (turnover < 0.1) || decide (turnover > 0.9)) &&
    !decide (ic_mean < 0.02) &&
    !decide (subuniverseSharpe d < requiredSubuniverseSharpe d)

/-- The four purely numeric thresholds (sharpe, fitness, turnover, margin),
without the sub-universe-sharpe criterion. -/
def fourNumericThresholds (d : IsData) : Bool :=
  !decide (d.sharpe.getD 0 < 1.5) && !decide (d.fitness.getD 0 < 1.0) &&
    !(decide (d.turnover.getD 0 < 0.1) || decide (d.turnover.getD 0 > 0.9)) &&
    !decide (d.margin.getD 0 < 0.02)

/-- One iteration of the `for check in checks` loop of lines 271-284: a check
whose `result` is `FAIL` or `PENDING` sets `is_qualified = False`; any other
result (including `PASS`, a result such as `WARNING`, or a missing result)
leaves the flag unchanged. -/
def checkStep (q : Bool) (c : Check) : Bool :=
  if c.result == some "FAIL" || c.result == some "PENDING" then false else q

/-- `check_alpha_qualification` (src/brain_batch_alpha.py lines 195-297).
The argument is the `is` object: `none` stands for `alpha_data.get('is', {})`
being absent or empty (`if not is_data: return False`, lines 200-204).
Any exception inside the Python body is caught and turned into `False`
(lines 294-297), so the function is total. -/
def check_alpha_qualification (alpha_data : Option IsData) : Bool :=
  match alpha_data with
  | none => false
  | some is_data =>
    (checksList is_data).foldl checkStep (numericQualified is_data)

/-- The loop of lines 271-284 never disqualifies when every check's result is
neither FAIL nor PENDING: the accumulator passes through unchanged. -/
theorem foldl_checkStep_id (l : List Check) (q : Bool)
    (h : ∀ c ∈ l, c.result ≠ some "FAIL" ∧ c.result ≠ some "PENDING") :
    l.foldl checkStep q = q := by
  induction l generalizing q with
  | nil => rfl
  | cons c cs ih =>
    rw [List.foldl_cons]
    have hc := h c (List.mem_cons_self c cs)
    have hs : checkStep q c = q := by
      simp [checkStep, hc.1, hc.2]
    rw [hs]
    exact ih q (fun x hx => h x (List.mem_cons_of_mem c hx))

/-- Once the accumulator is false the loop of lines 271-284 keeps it false. -/
theorem foldl_checkStep_false (l : List Check) : l.foldl checkStep false = false := by
  induction l with
  | nil => rfl
  | cons c cs ih =>
    rw [List.foldl_cons]
    have hs : checkStep false c = false := by
      simp [checkStep]
    rw [hs]
    exact ih

/-- A FAIL or PENDING check anywhere in the list drives the loop of lines
271-284 to false, whatever the incoming accumulator was. -/
theorem foldl_checkStep_disqualify (l : List Check) (q : Bool) (c : Check)
    (hc : c ∈ l) (h : c.result = some "FAIL" ∨ c.result = some "PENDING") :
    l.foldl checkStep q = false := by
  induction l generalizing q with
  | nil => cases hc
  | cons x xs ih =>
    rw [List.foldl_cons]
    rcases List.mem_cons.mp hc with h1 | h1
    · subst h1
      have hs : checkStep q c = false := by
        rcases h with h | h <;> simp [checkStep, h]
      rw [hs]
      exact foldl_checkStep_false xs
    · exact ih _ h1

/-- The loop of lines 271-284 can only lower the flag: a true outcome means the
incoming accumulator (the numeric verdict) was already true. -/
theorem foldl_checkStep_true (l : List Check) (q : Bool)
    (h : l.foldl checkStep q = true) : q = true := by
  induction l generalizing q with
  | nil => exact h
  | cons c cs ih =>
    rw [List.foldl_cons] at h
    have hq := ih _ h
    by_cases hcond : (c.result == some "FAIL" || c.result == some "PENDING") = true
    · rw [checkStep, if_pos hcond] at hq
      exact absurd hq (by simp)
    · rwa [checkStep, if_neg hcond] at hq

/-- C1: a metrics report with sharpe ≥ 1.5, fitness ≥ 1.0, turnover in
[0.1, 0.9], margin ≥ 0.02, sub-universe sharpe at least its reported limit,
and every named check reporting PASS is qualified. -/
theorem C1_qualified_when_all_criteria_met (d : IsData)
    (hs : 1.5 ≤ d.sharpe.getD 0) (hf : 1.0 ≤ d.fitness.getD 0)
    (ht1 : 0.1 ≤ d.turnover.getD 0) (ht2 : d.turnover.getD 0 ≤ 0.9)
    (hm : 0.02 ≤ d.margin.getD 0)
    (hsub : requiredSubuniverseSharpe d ≤ subuniverseSharpe d)
    (hchecks : ∀ c ∈ checksList d, c.result = some "PASS") :
    check_alpha_qualification (some d) = true := by
  show (checksList d).foldl checkStep (numericQualified d) = true
  rw [foldl_checkStep_id _ _ (fun c hc => by rw [hchecks c hc]; exact ⟨by simp, by simp⟩)]
  have h1 : ¬ (d.sharpe.getD 0 < 1.5) := not_lt.mpr hs
  have h2 : ¬ (d.fitness.getD 0 < 1.0) := not_lt.mpr hf
  have h3 : ¬ (d.turnover.getD 0 < 0.1) := not_lt.mpr ht1
  have h4 : ¬ (d.turnover.getD 0 > 0.9) := not_lt.mpr ht2
  have h5 : ¬ (d.margin.getD 0 < 0.02) := not_lt.mpr hm
  have h6 : ¬ (subuniverseSharpe d < requiredSubuniverseSharpe d) := not_lt.mpr hsub
  simp [numericQualified, h1, h2, h3, h4, h5, h6]

/-- Concrete witness for C1: the end-to-end example report of the spec
(sharpe 1.8, fitness 1.2, turnover 0.5, margin 0.03, one PASS check). -/
def dC1w : IsData :=
  { sharpe := some 1.8, fitness := some 1.2, turnover := some 0.5, margin := some 0.03,
    checks := some [⟨"LOW_SUB_UNIVERSE_SHARPE", some "PASS", some 2.0, some 1.0⟩] }

/-- C1 witness: the hypotheses of C1 hold for the concrete report dC1w and the
evaluator qualifies it. -/
theorem C1_witness :
    (∀ c ∈ checksList dC1w, c.result = some "PASS") ∧
    check_alpha_qualification (some dC1w) = true :=
  ⟨by simp [checksList, dC1w],
   C1_qualified_when_all_criteria_met dC1w
     (by simp only [dC1w, Option.getD_some]; norm_num)
     (by simp only [dC1w, Option.getD_some]; norm_num)
     (by simp only [dC1w, Option.getD_some]; norm_num)
     (by simp only [dC1w, Option.getD_some]; norm_num)
     (by simp only [dC1w, Option.getD_some]; norm_num)
     (by simp [subuniverseSharpe, requiredSubuniverseSharpe, subUniverseCheck,
         checksList, dC1w, List.find?]; norm_num)
     (by simp [checksList, dC1w])⟩

/-- A report passing every numeric threshold whose checks include one PASS
check and one check with result WARNING (neither PASS, FAIL nor PENDING). -/
def dC2cex : IsData :=
  { sharpe := some 2, fitness := some 2, turnover := some 0.5, margin := some 0.05,
    checks := some [⟨"LOW_SUB_UNIVERSE_SHARPE", some "PASS", some 2, some 1⟩,
                    ⟨"CONCENTRATED_WEIGHT", some "WARNING", none, none⟩] }

/-- C2 counterexample: dC2cex contains a named check whose result is not PASS
(it is WARNING), yet check_alpha_qualification returns true — the loop of
lines 277-284 only reacts to FAIL and PENDING. -/
theorem C2_counterexample :
    (∃ c ∈ checksList dC2cex, c.result ≠ some "PASS") ∧
    check_alpha_qualification (some dC2cex) = true := by
  constructor
  · exact ⟨⟨"CONCENTRATED_WEIGHT", some "WARNING", none, none⟩,
      by simp [checksList, dC2cex], by simp⟩
  · simp [check_alpha_qualification, dC2cex, checksList, numericQualified, checkStep,
      subuniverseSharpe, requiredSubuniverseSharpe, subUniverseCheck, List.find?]
    norm_num

/-- C2 amended: a named check whose result is FAIL or PENDING disqualifies the
report; results other than PASS, FAIL, PENDING (e.g. WARNING, or a missing
result) leave the verdict untouched. -/
theorem C2_fail_or_pending_disqualifies (d : IsData) (c : Check)
    (hc : c ∈ checksList d)
    (h : c.result = some "FAIL" ∨ c.result = some "PENDING") :
    check_alpha_qualification (some d) = false := by
  show (checksList d).foldl checkStep (numericQualified d) = false
  exact foldl_checkStep_disqualify _ _ c hc h

/-- A report whose checks contain a FAIL entry. -/
def dC2w : IsData :=
  { sharpe := some 2, fitness := some 2, turnover := some 0.5, margin := some 0.05,
    checks := some [⟨"UNITS", some "FAIL", none, none⟩] }

/-- C2 witness: the FAIL check of dC2w disqualifies it. -/
theorem C2_witness :
    (⟨"UNITS", some "FAIL", none, none⟩ : Check) ∈ checksList dC2w ∧
    check_alpha_qualification (some dC2w) = false :=
  ⟨by simp [checksList, dC2w],
   C2_fail_or_pending_disqualifies dC2w ⟨"UNITS", some "FAIL", none, none⟩
     (by simp [checksList, dC2w]) (Or.inl rfl)⟩

/-- C3: the evaluator always yields a boolean verdict; each missing numeric
field is read as 0; a missing checks collection (or one without a
LOW_SUB_UNIVERSE_SHARPE entry) makes both the sub-universe sharpe and its
required limit default to 0, so that criterion passes; with no checks at all
the verdict is exactly the conjunction of the four numeric thresholds, and in
general a qualified verdict forces the four numeric thresholds to hold. -/
theorem C3_missing_fields_default (d0 : IsData) :
    (check_alpha_qualification (some d0) = true ∨
        check_alpha_qualification (some d0) = false) ∧
    (∀ (f t m : Option Rat) (c : Option (List Check)),
        check_alpha_qualification (some ⟨none, f, t, m, c⟩) =
          check_alpha_qualification (some ⟨some 0, f, t, m, c⟩)) ∧
    (∀ (s t m : Option Rat) (c : Option (List Check)),
        check_alpha_qualification (some ⟨s, none, t, m, c⟩) =
          check_alpha_qualification (some ⟨s, some 0, t, m, c⟩)) ∧
    (∀ (s f m : Option Rat) (c : Option (List Check)),
        check_alpha_qualification (some ⟨s, f, none, m, c⟩) =
          check_alpha_qualification (some ⟨s, f, some 0, m, c⟩)) ∧
    (∀ (s f t : Option Rat) (c : Option (List Check)),
        check_alpha_qualification (some ⟨s, f, t, none, c⟩) =
          check_alpha_qualification (some ⟨s, f, t, some 0, c⟩)) ∧
    (d0.checks = none →
        subuniverseSharpe d0 = 0 ∧ requiredSubuniverseSharpe d0 = 0 ∧
        check_alpha_qualification (some d0) = fourNumericThresholds d0) ∧
    ((checksList d0).all (fun c => !(c.name == "LOW_SUB_UNIVERSE_SHARPE")) = true →
        subuniverseSharpe d0 = 0 ∧ requiredSubuniverseSharpe d0 = 0 ∧
        (!decide (subuniverseSharpe d0 < requiredSubuniverseSharpe d0)) = true) ∧
    (check_alpha_qualification (some d0) = true → fourNumericThresholds d0 = true) := by
  refine ⟨?_, ?_, ?_, ?_, ?_, ?_, ?_, ?_⟩
  · cases h : check_alpha_qualification (some d0)
    · exact Or.inr rfl
    · exact Or.inl rfl
  · intro f t m c; rfl
  · intro s t m c; rfl
  · intro s f m c; rfl
  · intro s f t c; rfl
  · intro h
    have h1 : checksList d0 = [] := by simp [checksList, h]
    have h2 : subuniverseSharpe d0 = 0 := by
      simp [subuniverseSharpe, subUniverseCheck, h1]
    have h3 : requiredSubuniverseSharpe d0 = 0 := by
      simp [requiredSubuniverseSharpe, subUniverseCheck, h1]
    refine ⟨h2, h3, ?_⟩
    show (checksList d0).foldl checkStep (numericQualified d0) = _
    rw [h1]
    simp [numericQualified, fourNumericThresholds, h2, h3]
  · intro h
    rw [List.all_eq_true] at h
    have hfind : subUniverseCheck d0 = none := by
      rw [subUniverseCheck, List.find?_eq_none]
      intro c hc
      have := h c hc
      simpa using this
    have h2 : subuniverseSharpe d0 = 0 := by simp [subuniverseSharpe, hfind]
    have h3 : requiredSubuniverseSharpe d0 = 0 := by
      simp [requiredSubuniverseSharpe, hfind]
    refine ⟨h2, h3, ?_⟩
    rw [h2, h3]
    simp
  · intro h
    have hq : numericQualified d0 = true := by
      have := foldl_checkStep_true (checksList d0) (numericQualified d0) h
      exact this
    rw [numericQualified] at hq
    simp only [Bool.and_eq_true] at hq
    rw [fourNumericThresholds]
    simp only [Bool.and_eq_true]
    exact ⟨⟨⟨hq.1.1.1.1, hq.1.1.1.2⟩, hq.1.1.2⟩, hq.1.2⟩

/-- C3 witness: a report with every field missing (all numeric values read as
0) gets the verdict false — the four thresholds fail — and the sub-universe
criterion defaults to 0 ≥ 0. -/
theorem C3_witness :
    subuniverseSharpe ⟨none, none, none, none, none⟩ = 0 ∧
    requiredSubuniverseSharpe ⟨none, none, none, none, none⟩ = 0 ∧
    check_alpha_qualification (some ⟨none, none, none, none, none⟩) =
      fourNumericThresholds ⟨none, none, none, none, none⟩ :=
  (C3_missing_fields_default ⟨none, none, none, none, none⟩).2.2.2.2.2.1 rfl

/-- The file `_save_alpha_id` appends qualifying alpha ids to
(src/brain_batch_alpha.py line 314). -/
def saveAlphaIdPath : String := "results/alpha_ids.txt"

/-- STORAGE_ALPHA_ID_PATH, the file `submit_alpha_ids` reads ids from and
rewrites after submission (src/main.py lines 8, 18, 37). -/
def STORAGE_ALPHA_ID_PATH : String := "alpha_ids.txt"

/-- C4: the path the orchestrator appends ids to and the path the submission
driver reads are different files — the ids saved by `_save_alpha_id` are never
seen by `submit_alpha_ids`. -/
theorem C4_save_and_submit_paths_differ :
    saveAlphaIdPath ≠ STORAGE_ALPHA_ID_PATH := by
  decide

/-- The observable behaviour of one attempt of `request_with_retry`
(src/session_manager.py lines 81-112): the underlying `session.get/post` call
either returns a response with some status code or raises a transport-level
exception. -/
inductive Attempt where
  | resp (status : Nat)
  | err
deriving DecidableEq, Repr

/-- How a call to `request_with_retry` terminates. -/
inductive Outcome where
  | returned (status : Nat)
  | returnedNone
  | raisedTransport
  | raisedUsage
deriving DecidableEq, Repr

/-- Termination mode of a `request_with_retry` call together with the number
of `create_session()` calls it made and the number of `time.sleep(5)` pauses. -/
structure RRResult where
  outcome : Outcome
  recreations : Nat
  pauses : Nat
deriving DecidableEq, Repr

/-- The `while retries < max_retries` loop of src/session_manager.py lines
84-112, one constructor case per remaining loop iteration (`remaining` =
`max_retries - retries`).  Each iteration first runs `get_session()`, which
recreates the session when it is absent or expiring (`valid = false`); for a
supported method it issues attempt `i`.  A 401 response recreates the session,
counts a retry and loops (line 95-99); any other status is returned (line
101).  A raised exception counts a retry, and when retries remain it sleeps 5,
recreates the session and loops (lines 103-109), otherwise re-raises (line
112).  An unsupported method raises ValueError inside the try (line 92), which
the `except Exception` clause handles exactly like a transport error.
Falling out of the loop returns None (Python's implicit return). -/
def rwrGo (isGetOrPost : Bool) (attempts : Nat → Attempt) (i remaining recs pauses : Nat)
    (valid : Bool) : RRResult :=
  match remaining with
  | 0 => ⟨.returnedNone, recs, pauses⟩
  | r + 1 =>
    let recs := if valid then recs else recs + 1
    if isGetOrPost then
      match attempts i with
      | .resp s =>
        if s = 401 then rwrGo isGetOrPost attempts (i + 1) r (recs + 1) pauses true
        else ⟨.returned s, recs, pauses⟩
      | .err =>
        if 0 < r then rwrGo isGetOrPost attempts (i + 1) r (recs + 1) (pauses + 1) true
        else ⟨.raisedTransport, recs, pauses⟩
    else
      if 0 < r then rwrGo isGetOrPost attempts (i + 1) r (recs + 1) (pauses + 1) true
      else ⟨.raisedUsage, recs, pauses⟩

/-- Python's `method.lower()` (src/session_manager.py lines 87-89),
character-wise ASCII lowering. -/
def methodLower (s : String) : String := String.mk (s.data.map Char.toLower)

/-- The method dispatch of lines 87-92: only lowercased `get` and `post` are
supported. -/
def supportedMethod (method : String) : Bool :=
  methodLower method == "get" || methodLower method == "post"

/-- `request_with_retry(method, url, max_retries=3)` (src/session_manager.py
lines 81-112).  `attempts i` is the behaviour of the i-th issued request;
`valid` says whether the session is live (not absent/expiring) at entry. -/
def request_with_retry (method : String) (attempts : Nat → Attempt) (max_retries : Nat)
    (valid : Bool) : RRResult :=
  rwrGo (supportedMethod method) attempts 0 max_retries 0 0 valid

/-- C5 counterexample: with three consecutive 401 responses (each attempt an
unauthorized response, none raising), the `while retries < max_retries` loop
exhausts and `request_with_retry` falls out of the loop, implicitly returning
None — it does not raise. -/
theorem C5_counterexample :
    (∀ i, i < 3 → (fun _ => Attempt.resp 401) i = Attempt.err ∨
        (fun _ => Attempt.resp 401) i = Attempt.resp 401) ∧
    request_with_retry "get" (fun _ => Attempt.resp 401) 3 true =
      ⟨Outcome.returnedNone, 3, 0⟩ :=
  ⟨fun _ _ => Or.inr rfl, by decide⟩

/-- C5 amended: when all 3 attempts fail (each a 401 or a transport error),
`request_with_retry` never returns a response; it raises the transport error
when the final attempt raised, but when the final attempt was a 401 the loop
exhausts and the function returns None. -/
theorem C5_exhaustion_outcome (m : String) (attempts : Nat → Attempt)
    (hm : supportedMethod m = true)
    (h : ∀ i, i < 3 → attempts i = Attempt.err ∨ attempts i = Attempt.resp 401) :
    ((request_with_retry m attempts 3 true).outcome = Outcome.raisedTransport ∨
      (request_with_retry m attempts 3 true).outcome = Outcome.returnedNone) ∧
    (attempts 2 = Attempt.err →
      (request_with_retry m attempts 3 true).outcome = Outcome.raisedTransport) ∧
    (attempts 2 = Attempt.resp 401 →
      (request_with_retry m attempts 3 true).outcome = Outcome.returnedNone) := by
  rcases h 0 (by omega) with h0 | h0 <;> rcases h 1 (by omega) with h1 | h1 <;>
    rcases h 2 (by omega) with h2 | h2 <;>
    refine ⟨?_, ?_, ?_⟩ <;>
    simp [request_with_retry, hm, rwrGo, h0, h1, h2]

/-- C5 witness: all-transport-error attempts satisfy the hypotheses and the
call raises the transport error. -/
theorem C5_witness :
    ((request_with_retry "get" (fun _ => Attempt.err) 3 true).outcome =
        Outcome.raisedTransport ∨
      (request_with_retry "get" (fun _ => Attempt.err) 3 true).outcome =
        Outcome.returnedNone) ∧
    ((fun _ => Attempt.err) 2 = Attempt.err →
      (request_with_retry "get" (fun _ => Attempt.err) 3 true).outcome =
        Outcome.raisedTransport) ∧
    ((fun _ => Attempt.err) 2 = Attempt.resp 401 →
      (request_with_retry "get" (fun _ => Attempt.err) 3 true).outcome =
        Outcome.returnedNone) :=
  C5_exhaustion_outcome "get" (fun _ => Attempt.err) (by decide)
    (fun _ _ => Or.inl rfl)

/-- C6 counterexample: three consecutive transport failures with a live
session raise the transport error after only 2 create_session calls (the
third failed attempt re-raises without recreating), not 3. -/
theorem C6_counterexample :
    (request_with_retry "get" (fun _ => Attempt.err) 3 true).outcome =
      Outcome.raisedTransport ∧
    (request_with_retry "get" (fun _ => Attempt.err) 3 true).recreations ≠ 3 := by
  decide

/-- C6 amended: three consecutive transport failures raise a terminal failure
after exactly 2 session recreations when the session is live at entry (3 when
the session is absent or expiring at entry, because get_session recreates it
once before the first attempt). -/
theorem C6_transport_exhaustion_recreations :
    request_with_retry "get" (fun _ => Attempt.err) 3 true =
      ⟨Outcome.raisedTransport, 2, 2⟩ ∧
    request_with_retry "get" (fun _ => Attempt.err) 3 false =
      ⟨Outcome.raisedTransport, 3, 2⟩ := by
  decide

/-- C7 counterexample: for method PUT the ValueError of line 92 is raised
inside the try block, caught by the `except Exception` clause, and retried:
the call performs 2 pauses and 2 session recreations before finally
re-raising the usage error — not an immediate raise on the first attempt. -/
theorem C7_counterexample :
    (request_with_retry "PUT" (fun _ => Attempt.resp 200) 3 true).outcome =
      Outcome.raisedUsage ∧
    (request_with_retry "PUT" (fun _ => Attempt.resp 200) 3 true).pauses = 2 ∧
    (request_with_retry "PUT" (fun _ => Attempt.resp 200) 3 true).recreations = 2 := by
  decide

/-- C7 amended: for every method other than GET or POST (after lowering),
`request_with_retry` treats the immediate ValueError like any attempt
failure: with retry bound 3 and a live session it pauses twice, recreates the
session twice, and only then re-raises the usage error; no request is ever
issued. -/
theorem C7_unsupported_method_retried (m : String) (attempts : Nat → Attempt)
    (h : supportedMethod m = false) :
    request_with_retry m attempts 3 true = ⟨Outcome.raisedUsage, 2, 2⟩ := by
  rw [request_with_retry, h]
  rfl

/-- C7 witness: method PUT is unsupported and exhausts its retries before
raising the usage error. -/
theorem C7_witness :
    request_with_retry "PUT" (fun _ => Attempt.resp 200) 3 true =
      ⟨Outcome.raisedUsage, 2, 2⟩ :=
  C7_unsupported_method_retried "PUT" (fun _ => Attempt.resp 200) (by decide)

/-- A GET response in the confirmation loop of `submit_alpha`
(src/brain_batch_alpha.py lines 342-352): the optional Retry-After header and
the status code. -/
structure ConfirmResp where
  retryAfter : Option Rat
  status : Nat
deriving DecidableEq, Repr

/-- The `while True` confirmation loop of lines 342-352: each iteration GETs
the submit URL; `float(res.headers.get('Retry-After', 0))` equal to 0 ends the
loop with success iff the status code is 200, a positive value sleeps and
polls again.  `fuel` bounds the number of GETs we unfold; `none` means the
loop did not decide within the fuel. -/
def confirmLoop (polls : Nat → ConfirmResp) (i fuel : Nat) : Option Bool :=
  match fuel with
  | 0 => none
  | f + 1 =>
    let r := polls i
    if r.retryAfter.getD 0 = 0 then some (r.status == 200)
    else confirmLoop polls (i + 1) f

/-- How a `submit_alpha` call ended (`outcome`, with `none` when the
confirmation loop did not decide within the fuel), how many POSTs it issued
(`postCount`) and how many `sleep(3)` pauses it took (`pauses`). -/
structure SubmitResult where
  outcome : Option Bool
  postCount : Nat
  pauses : Nat
deriving DecidableEq, Repr

/-- The `for attempt in range(5)` loop of `submit_alpha` (lines 327-354):
`posts i` is the status code of the i-th POST.  A 201 enters the confirmation
loop, whose verdict is returned; a 400 or 403 returns False at once; any
other status sleeps 3 and resends; exhausting the 5 attempts returns False. -/
def submitGo (posts : Nat → Nat) (polls : Nat → ConfirmResp)
    (fuel i remaining nposts npauses : Nat) : SubmitResult :=
  match remaining with
  | 0 => ⟨some false, nposts, npauses⟩
  | r + 1 =>
    let s := posts i
    if s = 201 then ⟨confirmLoop polls 0 fuel, nposts + 1, npauses⟩
    else if s = 400 ∨ s = 403 then ⟨some false, nposts + 1, npauses⟩
    else submitGo posts polls fuel (i + 1) r (nposts + 1) (npauses + 1)

/-- `submit_alpha(alpha_id)` (src/brain_batch_alpha.py lines 322-354). -/
def submit_alpha (posts : Nat → Nat) (polls : Nat → ConfirmResp) (fuel : Nat) :
    SubmitResult :=
  submitGo posts polls fuel 0 5 0 0

/-- `submit_multiple_alphas(alpha_ids)` (lines 356-370): sequentially submits
each id and partitions the list into (successful, failed) according to each
id's `submit_alpha` verdict. -/
def submit_multiple_alphas (ids : List String) (outcome : String → Bool) :
    List String × List String :=
  (ids.filter (fun a => outcome a), ids.filter (fun a => !outcome a))

/-- A run of `k` retryable statuses (neither 201 nor 400/403) starting at
attempt `i` just resends: each such attempt issues its POST, sleeps 3 and
loops (lines 337-339), advancing the loop `k` iterations and adding `k` POSTs
and `k` pauses. -/
theorem submitGo_skip (posts : Nat → Nat) (polls : Nat → ConfirmResp) (fuel : Nat) :
    ∀ (k i remaining nposts npauses : Nat), k < remaining →
    (∀ j, j < k → posts (i + j) ≠ 201 ∧ posts (i + j) ≠ 400 ∧ posts (i + j) ≠ 403) →
    submitGo posts polls fuel i remaining nposts npauses =
      submitGo posts polls fuel (i + k) (remaining - k) (nposts + k) (npauses + k) := by
  intro k
  induction k with
  | zero =>
    intro i remaining nposts npauses hlt h
    simp
  | succ n ih =>
    intro i remaining nposts npauses hlt h
    obtain ⟨r, rfl⟩ : ∃ r, remaining = r + 1 := ⟨remaining - 1, by omega⟩
    have h0 := h 0 (by omega)
    rw [Nat.add_zero] at h0
    have step : submitGo posts polls fuel i (r + 1) nposts npauses =
        submitGo posts polls fuel (i + 1) r (nposts + 1) (npauses + 1) := by
      simp [submitGo, h0.1, h0.2.1, h0.2.2]
    rw [step]
    have ihx := ih (i + 1) r (nposts + 1) (npauses + 1) (by omega)
      (fun j hj => by
        have hx := h (j + 1) (by omega)
        rwa [show i + (j + 1) = i + 1 + j by omega] at hx)
    rw [ihx]
    have e1 : i + 1 + n = i + (n + 1) := by omega
    have e2 : r - n = r + 1 - (n + 1) := by omega
    have e3 : nposts + 1 + n = nposts + (n + 1) := by omega
    have e4 : npauses + 1 + n = npauses + (n + 1) := by omega
    rw [e1, e2, e3, e4]

/-- A 400 or 403 on attempt `k` (after `k` retryable statuses) returns False
at once: `k + 1` POSTs in total and no pause after the rejection. -/
theorem submit_alpha_reject_at (posts : Nat → Nat) (polls : Nat → ConfirmResp)
    (fuel k : Nat) (hk : k < 5)
    (hpre : ∀ i, i < k → posts i ≠ 201 ∧ posts i ≠ 400 ∧ posts i ≠ 403)
    (h : posts k = 400 ∨ posts k = 403) :
    submit_alpha posts polls fuel = ⟨some false, k + 1, k⟩ := by
  rw [submit_alpha, submitGo_skip posts polls fuel k 0 5 0 0 hk
    (fun j hj => by simpa using hpre j hj)]
  obtain ⟨r, hr⟩ : ∃ r, 5 - k = r + 1 := ⟨5 - k - 1, by omega⟩
  rw [hr]
  rcases h with h | h <;> simp [submitGo, h]

/-- A 201 on attempt `k` (after `k` retryable statuses) enters the
confirmation loop, whose verdict is returned: `k + 1` POSTs, `k` pauses. -/
theorem submit_alpha_201_at (posts : Nat → Nat) (polls : Nat → ConfirmResp)
    (fuel k : Nat) (hk : k < 5)
    (hpre : ∀ i, i < k → posts i ≠ 201 ∧ posts i ≠ 400 ∧ posts i ≠ 403)
    (h : posts k = 201) :
    submit_alpha posts polls fuel = ⟨confirmLoop polls 0 fuel, k + 1, k⟩ := by
  rw [submit_alpha, submitGo_skip posts polls fuel k 0 5 0 0 hk
    (fun j hj => by simpa using hpre j hj)]
  obtain ⟨r, hr⟩ : ∃ r, 5 - k = r + 1 := ⟨5 - k - 1, by omega⟩
  rw [hr]
  simp [submitGo, h]

/-- C8: a POST answered 400 or 403 on any of the up-to-5 attempts is an
immediate terminal rejection — the run ends with that POST, failed, with no
further attempt and no pause after it; a run of five non-201, non-400/403
statuses exhausts the 5 attempts, pausing after each, and fails; a 201 on any
attempt proceeds to confirmation polling whose verdict decides the id, and a
first confirmation GET with Retry-After 0 and status 200 succeeds at once;
the spec's end-to-end confirmation sequence (Retry-After 5), (Retry-After 0,
status 200) also succeeds; and an id whose submission fails is recorded in
the failed partition. -/
theorem C8_submit_alpha_behaviour :
    (∀ (posts : Nat → Nat) (polls : Nat → ConfirmResp) (fuel k : Nat), k < 5 →
      (∀ i, i < k → posts i ≠ 201 ∧ posts i ≠ 400 ∧ posts i ≠ 403) →
      posts k = 400 ∨ posts k = 403 →
      submit_alpha posts polls fuel = ⟨some false, k + 1, k⟩) ∧
    (∀ (posts : Nat → Nat) (polls : Nat → ConfirmResp) (fuel : Nat),
      (∀ i, i < 5 → posts i ≠ 201 ∧ posts i ≠ 400 ∧ posts i ≠ 403) →
      submit_alpha posts polls fuel = ⟨some false, 5, 5⟩) ∧
    (∀ (posts : Nat → Nat) (polls : Nat → ConfirmResp) (fuel k : Nat), k < 5 →
      (∀ i, i < k → posts i ≠ 201 ∧ posts i ≠ 400 ∧ posts i ≠ 403) →
      posts k = 201 →
      submit_alpha posts polls fuel = ⟨confirmLoop polls 0 fuel, k + 1, k⟩) ∧
    (∀ (posts : Nat → Nat) (polls : Nat → ConfirmResp) (fuel k : Nat), k < 5 →
      (∀ i, i < k → posts i ≠ 201 ∧ posts i ≠ 400 ∧ posts i ≠ 403) →
      posts k = 201 → (polls 0).retryAfter = some 0 → (polls 0).status = 200 →
      submit_alpha posts polls (fuel + 1) = ⟨some true, k + 1, k⟩) ∧
    (∀ (posts : Nat → Nat) (fuel s k : Nat), k < 5 →
      (∀ i, i < k → posts i ≠ 201 ∧ posts i ≠ 400 ∧ posts i ≠ 403) →
      posts k = 201 →
      submit_alpha posts
        (fun i => if i = 0 then ⟨some 5, s⟩ else ⟨some 0, 200⟩) (fuel + 2) =
        ⟨some true, k + 1, k⟩) ∧
    (∀ (ids : List String) (outcome : String → Bool) (a : String),
      a ∈ ids → outcome a = false → a ∈ (submit_multiple_alphas ids outcome).2) := by
  refine ⟨?_, ?_, ?_, ?_, ?_, ?_⟩
  · intro posts polls fuel k hk hpre h
    exact submit_alpha_reject_at posts polls fuel k hk hpre h
  · intro posts polls fuel h
    have h0 := h 0 (by omega)
    have h1 := h 1 (by omega)
    have h2 := h 2 (by omega)
    have h3 := h 3 (by omega)
    have h4 := h 4 (by omega)
    simp [submit_alpha, submitGo, h0.1, h0.2.1, h0.2.2, h1.1, h1.2.1, h1.2.2,
      h2.1, h2.2.1, h2.2.2, h3.1, h3.2.1, h3.2.2, h4.1, h4.2.1, h4.2.2]
  · intro posts polls fuel k hk hpre h
    exact submit_alpha_201_at posts polls fuel k hk hpre h
  · intro posts polls fuel k hk hpre h hra hst
    rw [submit_alpha_201_at posts polls (fuel + 1) k hk hpre h]
    simp [confirmLoop, hra, hst]
  · intro posts fuel s k hk hpre h
    rw [submit_alpha_201_at posts _ (fuel + 2) k hk hpre h]
    simp [confirmLoop]
  · intro ids outcome a ha hout
    exact List.mem_filter.mpr ⟨ha, by simp [hout]⟩

/-- C8 witness: a 500 on the first attempt followed by a 403 on the second
fails after exactly 2 POSTs and the single pause that preceded the resend. -/
theorem C8_witness :
    submit_alpha (fun i => if i = 0 then 500 else 403) (fun _ => ⟨some 0, 200⟩) 1 =
      ⟨some false, 2, 1⟩ :=
  C8_submit_alpha_behaviour.1 (fun i => if i = 0 then 500 else 403)
    (fun _ => ⟨some 0, 200⟩) 1 1 (by omega)
    (fun i hi => by
      have hi0 : i = 0 := by omega
      subst hi0
      simp)
    (Or.inr rfl)

/-- A Result row as built by `_simulate_single_alpha` on success
(src/brain_batch_alpha.py lines 111-117): expression, alpha id, the
qualification verdict, the raw `is` metrics payload and a timestamp. -/
structure SimResult where
  expression : String
  alpha_id : String
  passed_all_checks : Bool
  metrics : Option IsData
  timestamp : String
deriving DecidableEq, Repr

/-- The result dict of lines 111-117: `passed_all_checks` is computed by
`check_alpha_qualification` on the same `is` payload stored under `metrics`
(`alpha_data.get('is', {})`, with `none` for absent-or-empty as before). -/
def mkResult (expression alpha_id : String) (alpha_is : Option IsData)
    (timestamp : String) : SimResult :=
  ⟨expression, alpha_id, check_alpha_qualification alpha_is, alpha_is, timestamp⟩

/-- The observable course of one `_simulate_single_alpha` task: any terminal
failure (non-201 submit, missing Location, missing alpha id, missing `is`
section, raised exception) yields `failed`; a completed run carries the data
of the result dict. -/
inductive SimOutcome where
  | failed
  | completed (expression alpha_id : String) (alpha_is : Option IsData) (timestamp : String)
deriving DecidableEq, Repr

/-- `_simulate_single_alpha`'s return value (lines 50-139): None on failure,
otherwise the result dict. -/
def runSingle : SimOutcome → Option SimResult
  | .failed => none
  | .completed e a d t => some (mkResult e a d t)

/-- The body of the `as_completed` aggregation loop of `simulate_alphas`
(lines 170-187): `if result and result.get('passed_all_checks'):` append the
result to the shared list (and persist it via `_save_alpha_id`); failed or
non-qualifying candidates are dropped. -/
def aggregateStep (results : List SimResult) (job : SimOutcome) : List SimResult :=
  match runSingle job with
  | some result => if result.passed_all_checks then results ++ [result] else results
  | none => results

/-- `simulate_alphas` (lines 142-193) restricted to its aggregation: the list
of results returned (and persisted, one `_save_alpha_id` call per element).
`as_completed` yields futures in a nondeterministic order; the invariant under
study holds for every completion order, so one representative order is
folded. -/
def simulate_alphas (jobs : List SimOutcome) : List SimResult :=
  jobs.foldl aggregateStep []

/-- Every result the aggregation loop ever appends is qualified with a
non-empty metrics payload (stated over an arbitrary starting accumulator). -/
theorem mem_foldl_aggregateStep (jobs : List SimOutcome) (acc : List SimResult)
    (r : SimResult) (hr : r ∈ jobs.foldl aggregateStep acc) :
    r ∈ acc ∨ (r.passed_all_checks = true ∧ r.metrics ≠ none) := by
  induction jobs generalizing acc with
  | nil => exact Or.inl hr
  | cons j js ih =>
    rw [List.foldl_cons] at hr
    rcases ih _ hr with h | h
    · cases j with
      | failed => exact Or.inl h
      | completed e a d t =>
        simp only [aggregateStep, runSingle] at h
        by_cases hq : (mkResult e a d t).passed_all_checks = true
        · rw [if_pos hq] at h
          rcases List.mem_append.mp h with h1 | h1
          · exact Or.inl h1
          · have heq : r = mkResult e a d t := List.mem_singleton.mp h1
            subst heq
            refine Or.inr ⟨hq, ?_⟩
            cases d with
            | none => exact absurd hq (by simp [mkResult, check_alpha_qualification])
            | some dd => simp [mkResult]
        · rw [if_neg hq] at h
          exact Or.inl h
    · exact Or.inr h

/-- C9: every Result in the aggregation returned by `simulate_alphas` (each of
which is also what `_save_alpha_id` persists) has `passed_all_checks = true`
and a non-empty metrics payload. -/
theorem C9_persisted_results_qualified (jobs : List SimOutcome) (r : SimResult)
    (hr : r ∈ simulate_alphas jobs) :
    r.passed_all_checks = true ∧ r.metrics ≠ none := by
  rcases mem_foldl_aggregateStep jobs [] r hr with h | h
  · cases h
  · exact h

/-- A qualifying metrics payload for the C9 witness (the spec's end-to-end
example). -/
def dC9w : IsData :=
  { sharpe := some 1.8, fitness := some 1.2, turnover := some 0.5, margin := some 0.03,
    checks := some [⟨"LOW_SUB_UNIVERSE_SHARPE", some "PASS", some 2.0, some 1.0⟩] }

/-- dC9w qualifies. -/
theorem dC9w_qualified : check_alpha_qualification (some dC9w) = true := by
  simp [check_alpha_qualification, dC9w, checksList, numericQualified, checkStep,
    subuniverseSharpe, requiredSubuniverseSharpe, subUniverseCheck, List.find?]
  norm_num

/-- C9 witness: a batch with one completed, qualifying candidate persists a
result that is qualified and carries its metrics. -/
theorem C9_witness :
    (mkResult "rank(close)" "idA" (some dC9w) "2026-01-01").passed_all_checks = true ∧
    (mkResult "rank(close)" "idA" (some dC9w) "2026-01-01").metrics ≠ none :=
  C9_persisted_results_qualified
    [SimOutcome.completed "rank(close)" "idA" (some dC9w) "2026-01-01"]
    (mkResult "rank(close)" "idA" (some dC9w) "2026-01-01")
    (by simp [simulate_alphas, aggregateStep, runSingle, List.foldl_cons,
          mkResult, dC9w_qualified])

/-- One GET on the simulation progress URL in `_simulate_single_alpha`
(lines 82-91): the optional Retry-After header and the optional `alpha` field
of the JSON body. -/
structure PollResp where
  retryAfter : Option Rat
  alpha : Option String
deriving DecidableEq, Repr

/-- The simulation polling loop of lines 81-129, restricted to its control
decision: `float(headers.get("Retry-After", 0))` equal to 0 ends polling and
the body's `alpha` field is extracted (`resp.json()['alpha']`; a missing field
raises KeyError, caught at line 131, giving None); a positive value sleeps and
polls again.  The inner `some x` is the extraction outcome; the outer `none`
means the loop did not finish within the fuel. -/
def simPollLoop (resps : Nat → PollResp) (i fuel : Nat) : Option (Option String) :=
  match fuel with
  | 0 => none
  | f + 1 =>
    let r := resps i
    if r.retryAfter.getD 0 = 0 then some r.alpha
    else simPollLoop resps (i + 1) f

/-- C10: a response with no Retry-After header at all is read as 0, i.e.
completion: the simulation poll loop stops at that response and extracts the
alpha id from it, and the submission confirmation loop stops and decides
success exactly when the status is 200 — independently of any remaining
fuel, i.e. with no further polling. -/
theorem C10_missing_retry_after_is_completion (resps : Nat → PollResp)
    (polls : Nat → ConfirmResp) (fuel : Nat)
    (h1 : (resps 0).retryAfter = none) (h2 : (polls 0).retryAfter = none) :
    simPollLoop resps 0 (fuel + 1) = some (resps 0).alpha ∧
    confirmLoop polls 0 (fuel + 1) = some ((polls 0).status == 200) := by
  constructor
  · rw [simPollLoop]
    simp [h1]
  · rw [confirmLoop]
    simp [h2]

/-- C10 witness: concrete first responses without a Retry-After header end
both loops at once. -/
theorem C10_witness :
    simPollLoop (fun _ => ⟨none, some "ALPHA1"⟩) 0 1 = some (some "ALPHA1") ∧
    confirmLoop (fun _ => ⟨none, 200⟩) 0 1 = some true :=
  C10_missing_retry_after_is_completion (fun _ => ⟨none, some "ALPHA1"⟩)
    (fun _ => ⟨none, 200⟩) 0 rfl rfl
